import Mathlib

/-!
# Verification of the zap-shift-server payment flow

Shallow embedding of `src/index.js` (an Express + MongoDB + Stripe backend
for a parcel-delivery app).  The embedded operations are:

* `generateTrackingId` — the tracking-id generator (line 30-35);
* `reconcile` — the `PATCH /payment-success` handler (line 224-286), the
  payment-reconciliation engine;
* `createCheckoutSession` — the `POST /create-checkout-session` handler
  (line 135-182), restricted to its input validation and unit-amount
  computation;
* `getPayments` — the `GET /payments` handler (line 113-126);
* `postUsers` — the `POST /users` handler (line 184-208);
* `createParcel` — the `POST /parcels` handler (line 128-132).

Nondeterministic inputs of the JavaScript (wall-clock time `Date.now()`,
`Math.random()`, the Stripe gateway, the verified Firebase identity) are
passed as explicit parameters.  A JavaScript exception caught by a
handler's `try/catch` (which answers HTTP 500) is modelled as the
`serverError` outcome.  MongoDB collections are modelled as lists of
documents in insertion order; `findOne`/`updateOne` act on the first
matching document, as they do on a natural-order scan.
-/

namespace ZapShift

/-- A parcel document in the `parcels` collection.  `id` is the string form
of its `_id`; `trackingId` is absent until the paid transition sets it. -/
structure Parcel where
  id : String
  senderEmail : String
  paymentStatus : String
  trackingId : Option String
  deriving Repr, DecidableEq

/-- The metadata object attached to a checkout session by
`create-checkout-session` (source line 167-170): it always carries
`parcelId`; `parcelName` may be absent. -/
structure SessionMetadata where
  parcelId : String
  parcelName : Option String
  deriving Repr, DecidableEq

/-- The fields of a Stripe checkout session read by the code.  `metadata`
is `none` when the session object carries no metadata (in which case the
JavaScript property access `session.metadata.parcelId` throws). -/
structure Session where
  payment_status : String
  metadata : Option SessionMetadata
  amount_total : Int
  currency : String
  customer_email : String
  payment_intent : String
  deriving Repr, DecidableEq

/-- A payment-ledger document, as built at source line 256-266.  `amount`
is `amount_total / 100` as an exact rational; `paidAt` is the insertion
time in milliseconds. -/
structure Payment where
  amount : Rat
  currency : String
  customerEmail : String
  parcelId : String
  parcelName : Option String
  trackingId : String
  transactionId : String
  paymentStatus : String
  paidAt : Nat
  deriving Repr, DecidableEq

/-- The mutable database state, plus an instrumentation log of the session
references sent to the Stripe gateway (`stripe.checkout.sessions.retrieve`),
used to express that the gateway is not contacted on early returns. -/
structure DBState where
  parcels : List Parcel
  payments : List Payment
  gatewayCalls : List String
  deriving Repr, DecidableEq

/-- Last `n` characters of a string, as in JavaScript `s.slice(-n)`. -/
def sliceLast (s : String) (n : Nat) : String :=
  ⟨s.toList.drop (s.toList.length - n)⟩

/-- `generateTrackingId` (source line 30-35): `Date.now()` and the random
base-36 segment are passed in explicitly. -/
def generateTrackingId (nowMs : Nat) (randomStr : String) : String :=
  "ZAP" ++ "-" ++ sliceLast (toString nowMs) 8 ++ "-" ++ randomStr

/-- `ObjectId.isValid` for a string argument: 24 hexadecimal characters.
`new ObjectId(s)` throws for any other string. -/
def isValidObjectId (s : String) : Bool :=
  s.length == 24 && s.toList.all (fun c =>
    c.isDigit || ('a' ≤ c && c ≤ 'f') || ('A' ≤ c && c ≤ 'F'))

/-- The `$set` document of the paid transition (source line 250-252)
applied to one parcel document. -/
def applyPaidUpdate (tid : String) (p : Parcel) : Parcel :=
  { p with paymentStatus := "paid", trackingId := some tid }

/-- `parcelsCollection.updateOne({_id: pid}, {$set: ...})` (source line
254): update the first document whose `_id` matches, returning the new
collection and the matched count. -/
def updateFirst (ps : List Parcel) (pid : String) (tid : String) :
    List Parcel × Nat :=
  match ps with
  | [] => ([], 0)
  | p :: rest =>
    if p.id == pid then (applyPaidUpdate tid p :: rest, 1)
    else
      let r := updateFirst rest pid tid
      (p :: r.1, r.2)

/-- Outcome of one `PATCH /payment-success` request, as the handler
answers it. -/
inductive ReconcileOutcome where
  /-- 400 `{error: "No session ID"}` (source line 227-229). -/
  | invalidRequest
  /-- 500 `{error: "Internal Server Error"}` from the catch block
  (source line 282-285). -/
  | serverError
  /-- 400 `{success:false, message:"Payment not verified"}`
  (source line 279-281). -/
  | notPaid
  /-- 200 `{success:true, message:"Payment already processed", ...}`
  (source line 241-246). -/
  | alreadyProcessed (trackingId : Option String) (transactionId : String)
  /-- 200 `{success:true, trackingId, transactionId, ...}`
  (source line 270-276). -/
  | confirmed (trackingId : String) (transactionId : String)
  deriving Repr, DecidableEq

/-- HTTP status code the handler sends for each outcome. -/
def statusOf : ReconcileOutcome → Nat
  | .invalidRequest => 400
  | .serverError => 500
  | .notPaid => 400
  | .alreadyProcessed _ _ => 200
  | .confirmed _ _ => 200

/-- The `success` field of the response body (absent fields read as
`false`). -/
def successOf : ReconcileOutcome → Bool
  | .alreadyProcessed _ _ => true
  | .confirmed _ _ => true
  | _ => false

/-- The payment-ledger document built at source line 256-266. -/
def mkPayment (s : Session) (pid : String) (pname : Option String)
    (tid : String) (now : Nat) : Payment :=
  { amount := (s.amount_total : Rat) / 100
    currency := s.currency
    customerEmail := s.customer_email
    parcelId := pid
    parcelName := pname
    trackingId := tid
    transactionId := s.payment_intent
    paymentStatus := s.payment_status
    paidAt := now }

/-- The write sequence of source line 249-276: `updateOne` on the parcel,
then `insertOne` of the payment record, then the `confirmed` response. -/
def confirmBranch (st : DBState) (s : Session) (pid : String)
    (pname : Option String) (tid : String) (now : Nat) :
    ReconcileOutcome × DBState :=
  let parcels2 := (updateFirst st.parcels pid tid).1
  let pay := mkPayment s pid pname tid now
  (.confirmed tid s.payment_intent,
   { st with parcels := parcels2, payments := st.payments ++ [pay] })

/-- Record in the instrumentation log that
`stripe.checkout.sessions.retrieve` was called with reference `sid`. -/
def noteGatewayCall (st : DBState) (sid : String) : DBState :=
  { st with gatewayCalls := st.gatewayCalls ++ [sid] }

/-- The `PATCH /payment-success` handler (source line 224-286).
`gw` is `stripe.checkout.sessions.retrieve` (`none` = the gateway throws
for an unknown reference, caught as a 500); `session_id` is the query
parameter (`none` = absent); `freshTid` is the value `generateTrackingId()`
would return at line 249; `now` is `new Date()` at line 265. -/
def reconcile (st : DBState) (gw : String → Option Session)
    (session_id : Option String) (freshTid : String) (now : Nat) :
    ReconcileOutcome × DBState :=
  match session_id with
  | none => (.invalidRequest, st)
  | some sid =>
    if sid = "" then (.invalidRequest, st)
    else
      match gw sid with
      | none => (.serverError, noteGatewayCall st sid)
      | some s =>
        if s.payment_status = "paid" then
          match s.metadata with
          | none => (.serverError, noteGatewayCall st sid)
          | some m =>
            if isValidObjectId m.parcelId then
              match st.parcels.find? (fun p => p.id == m.parcelId) with
              | some p =>
                if p.paymentStatus = "paid" then
                  (.alreadyProcessed p.trackingId s.payment_intent,
                   noteGatewayCall st sid)
                else
                  confirmBranch (noteGatewayCall st sid) s m.parcelId
                    m.parcelName freshTid now
              | none =>
                confirmBranch (noteGatewayCall st sid) s m.parcelId
                  m.parcelName freshTid now
            else (.serverError, noteGatewayCall st sid)
        else (.notPaid, noteGatewayCall st sid)

/-- `POST /parcels` (source line 128-132): inserts the request body
verbatim into the `parcels` collection. -/
def createParcel (st : DBState) (body : Parcel) : DBState :=
  { st with parcels := st.parcels ++ [body] }

/-- Numeric value of a list of decimal digits, most significant first. -/
def digitsVal (cs : List Char) : Nat :=
  cs.foldl (fun a c => a * 10 + (c.toNat - 48)) 0

/-- JavaScript `parseInt` with no radix argument, for inputs without a
hexadecimal `0x` prefix: skip leading spaces, read an optional sign and
then the longest decimal-digit prefix; `none` is `NaN` (no digits). -/
def jsParseInt (s : String) : Option Int :=
  match s.toList.dropWhile (fun c => c == ' ') with
  | [] => none
  | c :: rest =>
    if c == '-' then
      let ds := rest.takeWhile Char.isDigit
      if ds.isEmpty then none else some (-(digitsVal ds : Int))
    else if c == '+' then
      let ds := rest.takeWhile Char.isDigit
      if ds.isEmpty then none else some ((digitsVal ds : Int))
    else
      let ds := (c :: rest).takeWhile Char.isDigit
      if ds.isEmpty then none else some ((digitsVal ds : Int))

/-- Response of `POST /create-checkout-session` restricted to what the
claims mention: 400, or 200 with the `unit_amount` the session was
created with. -/
inductive CheckoutResp where
  | badRequest
  | ok (unitAmount : Int)
  deriving Repr, DecidableEq

/-- `POST /create-checkout-session` (source line 135-182):
`amount = parseInt(body.cost)`; 400 when `isNaN(amount) || amount <= 0`;
otherwise the session is created with `unit_amount = amount * 100`.
`cost` is taken as the string `parseInt` receives (a JSON number is
stringified by `parseInt` first). -/
def createCheckoutSession (cost : String) : CheckoutResp :=
  match jsParseInt cost with
  | none => .badRequest
  | some amount => if amount ≤ 0 then .badRequest else .ok (amount * 100)

/-- From the spec's words, for comparison with `createCheckoutSession`:
`cost` is a positive integer — a nonempty all-digit numeral of nonzero
value. -/
def isPositiveIntegerString (s : String) : Bool :=
  !s.toList.isEmpty && s.toList.all Char.isDigit && decide (0 < digitsVal s.toList)

/-- Sort relation of `GET /payments`: `paidAt` descending
(`sort({paidAt: -1})`, source line 123). -/
def paidAtGE (a b : Payment) : Prop := b.paidAt ≤ a.paidAt

instance : DecidableRel paidAtGE := fun a b => Nat.decLe b.paidAt a.paidAt

instance : IsTotal Payment paidAtGE := ⟨fun a b => Nat.le_total b.paidAt a.paidAt⟩

instance : IsTrans Payment paidAtGE := ⟨fun _ _ _ h1 h2 => Nat.le_trans h2 h1⟩

/-- Response of `GET /payments`. -/
inductive PaymentsResp where
  | forbidden
  | ok (records : List Payment)
  deriving Repr, DecidableEq

/-- `GET /payments` (source line 113-126): `decodedEmail` is the email of
the verified Firebase identity (`req.decoded_email`), `email` the query
parameter; 403 when they differ, otherwise the `payments` documents with
`customerEmail = email` sorted by `paidAt` descending. -/
def getPayments (decodedEmail : String) (email : String)
    (payments : List Payment) : PaymentsResp :=
  if decodedEmail ≠ email then .forbidden
  else .ok (List.insertionSort paidAtGE
    (payments.filter (fun p => p.customerEmail == email)))

/-- The request body of `POST /users`. -/
structure UserBody where
  displayName : Option String
  email : String
  photoURL : Option String
  deriving Repr, DecidableEq

/-- A document of the `users` collection. -/
structure User where
  displayName : Option String
  email : String
  photoURL : Option String
  role : String
  createdAt : Nat
  deriving Repr, DecidableEq

/-- Response of `POST /users`. -/
inductive UsersResp where
  /-- 200 `{message: "User already exists", insertedId: null}`. -/
  | alreadyExists
  /-- 201 with the insert result of the new document. -/
  | created (u : User)
  deriving Repr, DecidableEq

/-- `POST /users` (source line 184-208): `findOne({email})`; if a document
exists answer `alreadyExists` without writing, else insert a new user with
`role = "user"` and `createdAt = new Date()` (passed as `now`). -/
def postUsers (users : List User) (body : UserBody) (now : Nat) :
    UsersResp × List User :=
  match users.find? (fun u => u.email == body.email) with
  | some _ => (.alreadyExists, users)
  | none =>
    let newUser : User :=
      { displayName := body.displayName, email := body.email,
        photoURL := body.photoURL, role := "user", createdAt := now }
    (.created newUser, users ++ [newUser])

/-- Number of payment-ledger documents referencing parcel id `pid`. -/
def refCount (payments : List Payment) (pid : String) : Nat :=
  (payments.filter (fun q => q.parcelId == pid)).length

/-- The cross-entity consistency invariant of the spec: every parcel is
paid iff exactly one ledger record references it, and at most one record
references any parcel. -/
def ledgerInv (st : DBState) : Prop :=
  ∀ p ∈ st.parcels,
    (p.paymentStatus = "paid" ↔ refCount st.payments p.id = 1) ∧
      refCount st.payments p.id ≤ 1

instance (st : DBState) : Decidable (ledgerInv st) :=
  decidable_of_iff
    (∀ p ∈ st.parcels,
      (p.paymentStatus = "paid" ↔ refCount st.payments p.id = 1) ∧
        refCount st.payments p.id ≤ 1)
    Iff.rfl

/-! ## Concrete scenarios used by witnesses and counterexamples -/

/-- The paid session of the spec's worked example (`cs_test_1`,
`amountTotal = 5000`, `metadata.parcelId = ` a valid ObjectId string). -/
def sessPaid : Session :=
  { payment_status := "paid"
    metadata := some ⟨"aaaaaaaaaaaaaaaaaaaaaaaa", some "Box"⟩
    amount_total := 5000
    currency := "usd"
    customer_email := "a@b.c"
    payment_intent := "pi_abc" }

/-- The metadata object of `sessPaid`. -/
def mPaid : SessionMetadata := ⟨"aaaaaaaaaaaaaaaaaaaaaaaa", some "Box"⟩

/-- An unpaid session. -/
def sessUnpaid : Session :=
  { payment_status := "unpaid"
    metadata := some ⟨"aaaaaaaaaaaaaaaaaaaaaaaa", some "Box"⟩
    amount_total := 5000
    currency := "usd"
    customer_email := "a@b.c"
    payment_intent := "pi_abc" }

/-- Gateway knowing exactly the session `cs_test_1 := sessPaid`. -/
def gwPaid : String → Option Session :=
  fun r => if r = "cs_test_1" then some sessPaid else none

/-- Gateway knowing exactly the session `cs_u := sessUnpaid`. -/
def gwUnpaid : String → Option Session :=
  fun r => if r = "cs_u" then some sessUnpaid else none

/-- The parcel `sessPaid.metadata.parcelId` resolves to, still unpaid. -/
def parcelUnpaid : Parcel :=
  { id := "aaaaaaaaaaaaaaaaaaaaaaaa", senderEmail := "a@b.c",
    paymentStatus := "unpaid", trackingId := none }

/-- An already-paid parcel holding the tracking id of its first
reconciliation. -/
def parcelPaidOld : Parcel :=
  { id := "aaaaaaaaaaaaaaaaaaaaaaaa", senderEmail := "a@b.c",
    paymentStatus := "paid", trackingId := some "ZAP-OLD" }

/-- A client-supplied `POST /parcels` body that already says `paid`. -/
def parcelGhostPaid : Parcel :=
  { id := "bbbbbbbbbbbbbbbbbbbbbbbb", senderEmail := "x@y.z",
    paymentStatus := "paid", trackingId := none }

/-- Store holding only the unpaid parcel of the worked example. -/
def stUnpaid : DBState := ⟨[parcelUnpaid], [], []⟩

/-- The empty store. -/
def stEmpty : DBState := ⟨[], [], []⟩

/-! ## Helper lemmas -/

theorem updateFirst_of_find?_none {pid tid : String} :
    ∀ {ps : List Parcel}, ps.find? (fun p => p.id == pid) = none →
      (updateFirst ps pid tid).1 = ps := by
  intro ps
  induction ps with
  | nil => intro _; rfl
  | cons p rest ih =>
    intro h
    cases hpid : (p.id == pid) with
    | false =>
      rw [List.find?_cons, hpid] at h
      simp [updateFirst, hpid, ih h]
    | true => rw [List.find?_cons, hpid] at h; cases h

theorem find?_updateFirst_of_find? {pid tid : String} :
    ∀ {ps : List Parcel} {p : Parcel},
      ps.find? (fun q => q.id == pid) = some p →
      (updateFirst ps pid tid).1.find? (fun q => q.id == pid) =
        some (applyPaidUpdate tid p) := by
  intro ps
  induction ps with
  | nil => intro p h; cases h
  | cons q rest ih =>
    intro p h
    cases hpid : (q.id == pid) with
    | true =>
      rw [List.find?_cons, hpid] at h
      cases h
      simp [updateFirst, hpid, List.find?_cons, applyPaidUpdate]
    | false =>
      rw [List.find?_cons, hpid] at h
      simp [updateFirst, hpid, List.find?_cons, ih h]

theorem updateFirst_mem {pid tid : String} :
    ∀ {ps : List Parcel}, ps.Pairwise (fun a b => a.id ≠ b.id) →
      ∀ q ∈ (updateFirst ps pid tid).1,
        (q ∈ ps ∧ q.id ≠ pid) ∨
          ∃ p, ps.find? (fun x => x.id == pid) = some p ∧
            q = applyPaidUpdate tid p := by
  intro ps
  induction ps with
  | nil => intro _ q hq; cases hq
  | cons p rest ih =>
    intro hpw q hq
    rw [List.pairwise_cons] at hpw
    cases hpid : (p.id == pid) with
    | true =>
      rw [updateFirst] at hq
      rw [hpid] at hq
      simp only [if_true] at hq
      rcases List.mem_cons.mp hq with hq | hq
      · exact Or.inr ⟨p, by rw [List.find?_cons, hpid], hq⟩
      · refine Or.inl ⟨List.mem_cons_of_mem _ hq, ?_⟩
        have := hpw.1 q hq
        have hpeq : p.id = pid := by simpa using hpid
        rw [hpeq] at this
        exact fun hc => this hc.symm
    | false =>
      rw [updateFirst] at hq
      rw [hpid] at hq
      simp only [if_false, Bool.false_eq_true] at hq
      rcases List.mem_cons.mp hq with hq | hq
      · subst hq
        exact Or.inl ⟨List.mem_cons_self _ _, by simpa using hpid⟩
      · rcases ih hpw.2 q hq with ⟨hmem, hne⟩ | ⟨p', hfind, heq⟩
        · exact Or.inl ⟨List.mem_cons_of_mem _ hmem, hne⟩
        · exact Or.inr ⟨p', by rw [List.find?_cons, hpid]; exact hfind, heq⟩

theorem refCount_append (payments : List Payment) (pay : Payment)
    (x : String) :
    refCount (payments ++ [pay]) x =
      refCount payments x + (if pay.parcelId == x then 1 else 0) := by
  unfold refCount
  rw [List.filter_append, List.length_append]
  cases h : pay.parcelId == x <;> simp [List.filter, h]

theorem takeWhile_eq_of_all {α : Type} {p : α → Bool} :
    ∀ {l : List α}, l.all p = true → l.takeWhile p = l := by
  intro l
  induction l with
  | nil => intro _; rfl
  | cons a t ih =>
    intro h
    rw [List.all_cons, Bool.and_eq_true] at h
    simp [List.takeWhile_cons, h.1, ih h.2]

theorem isDigit_beq_false {c d : Char} (h : c.isDigit = true)
    (hd : d.isDigit = false) : (c == d) = false := by
  cases hcd : (c == d) with
  | false => rfl
  | true =>
    have : c = d := by simpa using hcd
    subst this
    rw [h] at hd
    cases hd

theorem jsParseInt_of_digits {s : String}
    (h : isPositiveIntegerString s = true) :
    jsParseInt s = some ((digitsVal s.toList : Nat) : Int) := by
  unfold isPositiveIntegerString at h
  rw [Bool.and_eq_true, Bool.and_eq_true] at h
  obtain ⟨⟨h1, h2⟩, _⟩ := h
  unfold jsParseInt
  cases hs : s.toList with
  | nil => rw [hs] at h1; cases h1
  | cons c rest =>
    rw [hs] at h2
    rw [List.all_cons, Bool.and_eq_true] at h2
    have hsp : (c == ' ') = false := isDigit_beq_false h2.1 (by decide)
    have hms : (c == '-') = false := isDigit_beq_false h2.1 (by decide)
    have hps : (c == '+') = false := isDigit_beq_false h2.1 (by decide)
    rw [List.dropWhile_cons, hsp]
    simp only [Bool.false_eq_true, if_false, hms, hps]
    have hall : (c :: rest).all Char.isDigit = true := by
      rw [List.all_cons, Bool.and_eq_true]; exact h2
    rw [takeWhile_eq_of_all hall]
    simp [hs]

theorem confirmBranch_preserves_ledgerInv (st : DBState) (s : Session)
    (pid : String) (pname : Option String) (tid : String) (now : Nat)
    (hids : st.parcels.Pairwise (fun a b => a.id ≠ b.id))
    (hinv : ledgerInv st)
    (hfind : ∀ p, st.parcels.find? (fun q => q.id == pid) = some p →
      p.paymentStatus ≠ "paid") :
    ledgerInv (confirmBranch st s pid pname tid now).2 := by
  intro q hq
  have hq' : q ∈ (updateFirst st.parcels pid tid).1 := hq
  rcases updateFirst_mem hids q hq' with ⟨hmem, hne⟩ | ⟨p, hfindp, rfl⟩
  · have h := hinv q hmem
    have hb : ((mkPayment s pid pname tid now).parcelId == q.id) = false := by
      have : pid ≠ q.id := fun hc => hne hc.symm
      simpa [mkPayment] using this
    show (q.paymentStatus = "paid" ↔
        refCount (st.payments ++ [mkPayment s pid pname tid now]) q.id = 1) ∧
      refCount (st.payments ++ [mkPayment s pid pname tid now]) q.id ≤ 1
    rw [refCount_append, hb]
    simpa using h
  · have hpid : p.id = pid := by simpa using List.find?_some hfindp
    have hmemp : p ∈ st.parcels := List.mem_of_find?_eq_some hfindp
    have hnp : p.paymentStatus ≠ "paid" := hfind p hfindp
    obtain ⟨hiff, hle⟩ := hinv p hmemp
    have h0 : refCount st.payments p.id = 0 := by
      have h1 : refCount st.payments p.id ≠ 1 := fun hc => hnp (hiff.mpr hc)
      omega
    have hb : ((mkPayment s pid pname tid now).parcelId ==
        (applyPaidUpdate tid p).id) = true := by
      simpa [mkPayment, applyPaidUpdate] using hpid.symm
    show ((applyPaidUpdate tid p).paymentStatus = "paid" ↔
        refCount (st.payments ++ [mkPayment s pid pname tid now])
          (applyPaidUpdate tid p).id = 1) ∧
      refCount (st.payments ++ [mkPayment s pid pname tid now])
        (applyPaidUpdate tid p).id ≤ 1
    rw [refCount_append, hb]
    have hid2 : (applyPaidUpdate tid p).id = p.id := rfl
    rw [hid2, h0]
    simp [applyPaidUpdate]

/-! ## Claim theorems -/

/-- C1, counterexample: the claim says the step-5 write leaves an
already-paid parcel's trackingId unchanged.  On the code the write is an
unconditional `updateOne` keyed only by `_id`: applied to the paid parcel
holding trackingId `ZAP-OLD` it replaces the trackingId with the freshly
generated `ZAP-NEW`. -/
theorem c1_counterexample :
    parcelPaidOld.paymentStatus = "paid" ∧
      parcelPaidOld.trackingId = some "ZAP-OLD" ∧
      ¬ ((updateFirst [parcelPaidOld] parcelPaidOld.id "ZAP-NEW").1.all
        (fun p => p.trackingId == some "ZAP-OLD")) := by decide

/-- C1 (amended): the step-5 write (`updateOne({_id}, {$set: ...})`) is
unconditional: executed against a parcel whose paymentStatus is already
"paid", it leaves the paymentStatus "paid" but replaces the trackingId
with the newly generated one.  (An already-paid parcel is protected only
by the step-4 read check of a sequential reconcile, not by this write.) -/
theorem c1_step5_update_is_unconditional (p : Parcel) (rest : List Parcel)
    (tid : String) (h : p.paymentStatus = "paid") :
    (updateFirst (p :: rest) p.id tid).1 = applyPaidUpdate tid p :: rest ∧
      (applyPaidUpdate tid p).paymentStatus = p.paymentStatus ∧
      (applyPaidUpdate tid p).paymentStatus = "paid" ∧
      (applyPaidUpdate tid p).trackingId = some tid := by
  refine ⟨?_, h ▸ rfl, rfl, rfl⟩
  simp [updateFirst]

theorem c1_witness :
    (updateFirst [parcelPaidOld] parcelPaidOld.id "ZAP-NEW").1 =
        [applyPaidUpdate "ZAP-NEW" parcelPaidOld] ∧
      (applyPaidUpdate "ZAP-NEW" parcelPaidOld).paymentStatus =
        parcelPaidOld.paymentStatus ∧
      (applyPaidUpdate "ZAP-NEW" parcelPaidOld).paymentStatus = "paid" ∧
      (applyPaidUpdate "ZAP-NEW" parcelPaidOld).trackingId = some "ZAP-NEW" :=
  c1_step5_update_is_unconditional parcelPaidOld [] "ZAP-NEW" (by decide)

/-- C3: behaviour of the code at the failing input.  The session
`cs_test_1` is paid and its `metadata.parcelId` is a well-formed ObjectId
that matches no parcel (the store is empty).  The claim says reconcile
fails with DataIntegrity and performs no writes; the code instead answers
200 `success:true` (`confirmed`), updates no parcel, and inserts a
payment-ledger record referencing the nonexistent parcel. -/
theorem c3_ghost_parcel_write :
    (reconcile stEmpty gwPaid (some "cs_test_1") "ZAP-1" 7).1 =
        .confirmed "ZAP-1" "pi_abc" ∧
      statusOf (reconcile stEmpty gwPaid (some "cs_test_1") "ZAP-1" 7).1 =
        200 ∧
      (reconcile stEmpty gwPaid (some "cs_test_1") "ZAP-1" 7).2.parcels =
        [] ∧
      (reconcile stEmpty gwPaid (some "cs_test_1") "ZAP-1" 7).2.payments.length =
        1 := by decide

/-- C4, counterexample: the invariant "paid iff exactly one ledger record"
is not preserved by every operation.  `POST /parcels` inserts the request
body verbatim, so a body that already says `paymentStatus = "paid"`
creates a paid parcel with zero ledger records. -/
theorem c4_counterexample :
    ledgerInv stEmpty ∧
      ¬ ledgerInv (createParcel stEmpty parcelGhostPaid) := by decide

/-- C4 (amended): the reconcile operation preserves the invariant — for
every store whose parcels have pairwise-distinct ids and which satisfies
the invariant, the state after any reconcile call still satisfies it (the
parcel update and the ledger insert of a confirmation happen together);
but parcel creation does not preserve it, since `POST /parcels` stores
the client body verbatim. -/
theorem c4_reconcile_preserves_ledgerInv
    (st : DBState) (gw : String → Option Session) (sid : Option String)
    (tid : String) (now : Nat)
    (hids : st.parcels.Pairwise (fun a b => a.id ≠ b.id))
    (hinv : ledgerInv st) :
    ledgerInv (reconcile st gw sid tid now).2 := by
  unfold reconcile
  split
  · exact hinv
  · split
    · exact hinv
    · split
      · exact hinv
      · split
        · split
          · exact hinv
          · split
            · split
              · split
                · exact hinv
                · rename_i m hf hp
                  refine confirmBranch_preserves_ledgerInv _ _ _ _ _ _
                    hids hinv ?_
                  intro p' hp'
                  dsimp only [noteGatewayCall] at hp'
                  rw [hf] at hp'
                  cases hp'
                  exact hp
              · rename_i m hf
                refine confirmBranch_preserves_ledgerInv _ _ _ _ _ _
                  hids hinv ?_
                intro p' hp'
                dsimp only [noteGatewayCall] at hp'
                rw [hf] at hp'
                cases hp'
            · exact hinv
        · exact hinv

theorem c4_witness :
    ledgerInv (reconcile stUnpaid gwPaid (some "cs_test_1") "ZAP-1" 7).2 :=
  c4_reconcile_preserves_ledgerInv stUnpaid gwPaid (some "cs_test_1")
    "ZAP-1" 7 (by decide) (by decide)

/-- C5: a session whose payment status is not "paid" makes reconcile
answer `NotPaid` — HTTP 400 with `success:false` — and leaves the parcel
and payment collections unchanged. -/
theorem c5_not_paid_no_writes
    (st : DBState) (gw : String → Option Session) (sid : String)
    (s : Session) (tid : String) (now : Nat)
    (hsid : sid ≠ "") (hgw : gw sid = some s)
    (hnp : s.payment_status ≠ "paid") :
    (reconcile st gw (some sid) tid now).1 = .notPaid ∧
      statusOf (reconcile st gw (some sid) tid now).1 = 400 ∧
      successOf (reconcile st gw (some sid) tid now).1 = false ∧
      (reconcile st gw (some sid) tid now).2.parcels = st.parcels ∧
      (reconcile st gw (some sid) tid now).2.payments = st.payments := by
  simp [reconcile, hsid, hgw, hnp, statusOf, successOf, noteGatewayCall]

theorem c5_witness :
    (reconcile stUnpaid gwUnpaid (some "cs_u") "ZAP-1" 7).1 = .notPaid ∧
      statusOf (reconcile stUnpaid gwUnpaid (some "cs_u") "ZAP-1" 7).1 =
        400 ∧
      successOf (reconcile stUnpaid gwUnpaid (some "cs_u") "ZAP-1" 7).1 =
        false ∧
      (reconcile stUnpaid gwUnpaid (some "cs_u") "ZAP-1" 7).2.parcels =
        stUnpaid.parcels ∧
      (reconcile stUnpaid gwUnpaid (some "cs_u") "ZAP-1" 7).2.payments =
        stUnpaid.payments :=
  c5_not_paid_no_writes stUnpaid gwUnpaid "cs_u" sessUnpaid "ZAP-1" 7
    (by decide) rfl (by decide)

/-- C2: idempotence of reconcile.  When the session is paid and the
parcel is already paid, reconcile answers `AlreadyProcessed` with the
parcel's stored trackingId and the session's transaction identifier, and
writes nothing.  When the parcel is not yet paid, the first call answers
`Confirmed` and inserts exactly one payment record, and a second call on
the resulting state answers `AlreadyProcessed` with the identical
trackingId and inserts nothing. -/
theorem c2_reconcile_idempotent
    (st : DBState) (gw : String → Option Session) (sid : String)
    (s : Session) (m : SessionMetadata) (p : Parcel)
    (tid1 tid2 : String) (now1 now2 : Nat)
    (hsid : sid ≠ "") (hgw : gw sid = some s)
    (hpaid : s.payment_status = "paid") (hmeta : s.metadata = some m)
    (hvalid : isValidObjectId m.parcelId = true)
    (hfind : st.parcels.find? (fun q => q.id == m.parcelId) = some p) :
    (p.paymentStatus = "paid" →
      (reconcile st gw (some sid) tid1 now1).1 =
          .alreadyProcessed p.trackingId s.payment_intent ∧
        (reconcile st gw (some sid) tid1 now1).2.parcels = st.parcels ∧
        (reconcile st gw (some sid) tid1 now1).2.payments = st.payments) ∧
      (p.paymentStatus ≠ "paid" →
        (reconcile st gw (some sid) tid1 now1).1 =
            .confirmed tid1 s.payment_intent ∧
          (reconcile st gw (some sid) tid1 now1).2.payments.length =
            st.payments.length + 1 ∧
          (reconcile (reconcile st gw (some sid) tid1 now1).2 gw (some sid)
              tid2 now2).1 =
            .alreadyProcessed (some tid1) s.payment_intent ∧
          (reconcile (reconcile st gw (some sid) tid1 now1).2 gw (some sid)
              tid2 now2).2.payments =
            (reconcile st gw (some sid) tid1 now1).2.payments) := by
  constructor
  · intro hp
    simp [reconcile, hsid, hgw, hpaid, hmeta, hvalid, hfind, hp,
      noteGatewayCall]
  · intro hp
    have e1 : reconcile st gw (some sid) tid1 now1 =
        confirmBranch (noteGatewayCall st sid) s m.parcelId m.parcelName
          tid1 now1 := by
      simp [reconcile, hsid, hgw, hpaid, hmeta, hvalid, hfind, hp]
    have hf2 : (confirmBranch (noteGatewayCall st sid) s m.parcelId
        m.parcelName tid1 now1).2.parcels.find?
          (fun q => q.id == m.parcelId) =
        some (applyPaidUpdate tid1 p) :=
      find?_updateFirst_of_find? hfind
    rw [e1]
    refine ⟨rfl, ?_, ?_, ?_⟩
    · simp [confirmBranch, noteGatewayCall]
    · simp [reconcile, hsid, hgw, hpaid, hmeta, hvalid, hf2,
        applyPaidUpdate]
    · have e2 : reconcile (confirmBranch (noteGatewayCall st sid) s
          m.parcelId m.parcelName tid1 now1).2 gw (some sid) tid2 now2 =
          (.alreadyProcessed (some tid1) s.payment_intent,
           noteGatewayCall (confirmBranch (noteGatewayCall st sid) s
             m.parcelId m.parcelName tid1 now1).2 sid) := by
        simp [reconcile, hsid, hgw, hpaid, hmeta, hvalid, hf2,
          applyPaidUpdate]
      rw [e2]
      rfl

theorem c2_witness :
    (reconcile stUnpaid gwPaid (some "cs_test_1") "ZAP-1" 7).1 =
        .confirmed "ZAP-1" "pi_abc" ∧
      (reconcile stUnpaid gwPaid (some "cs_test_1") "ZAP-1" 7).2.payments.length =
        stUnpaid.payments.length + 1 ∧
      (reconcile (reconcile stUnpaid gwPaid (some "cs_test_1") "ZAP-1" 7).2
          gwPaid (some "cs_test_1") "ZAP-2" 9).1 =
        .alreadyProcessed (some "ZAP-1") "pi_abc" ∧
      (reconcile (reconcile stUnpaid gwPaid (some "cs_test_1") "ZAP-1" 7).2
          gwPaid (some "cs_test_1") "ZAP-2" 9).2.payments =
        (reconcile stUnpaid gwPaid (some "cs_test_1") "ZAP-1" 7).2.payments := by
  have h := c2_reconcile_idempotent stUnpaid gwPaid "cs_test_1" sessPaid
    mPaid parcelUnpaid "ZAP-1" "ZAP-2" 7 9 (by decide) rfl rfl rfl
    (by decide) rfl
  exact h.2 (by decide)

/-- C6: the payment record persisted by a confirmed reconciliation has
`amount = amountTotal / 100` exactly, and its currency, customerEmail,
parcelId, parcelName, trackingId and transactionId come from the session
and the generated trackingId; for `amountTotal = 5000` the amount is 50. -/
theorem c6_payment_record_fields
    (st : DBState) (gw : String → Option Session) (sid : String)
    (s : Session) (m : SessionMetadata) (tid : String) (now : Nat)
    (hsid : sid ≠ "") (hgw : gw sid = some s)
    (hpaid : s.payment_status = "paid") (hmeta : s.metadata = some m)
    (hvalid : isValidObjectId m.parcelId = true)
    (hfind : ∀ p, st.parcels.find? (fun q => q.id == m.parcelId) = some p →
      p.paymentStatus ≠ "paid") :
    (reconcile st gw (some sid) tid now).1 =
        .confirmed tid s.payment_intent ∧
      (reconcile st gw (some sid) tid now).2.payments =
        st.payments ++ [mkPayment s m.parcelId m.parcelName tid now] ∧
      (mkPayment s m.parcelId m.parcelName tid now).amount =
        (s.amount_total : Rat) / 100 ∧
      (mkPayment s m.parcelId m.parcelName tid now).currency = s.currency ∧
      (mkPayment s m.parcelId m.parcelName tid now).customerEmail =
        s.customer_email ∧
      (mkPayment s m.parcelId m.parcelName tid now).parcelId = m.parcelId ∧
      (mkPayment s m.parcelId m.parcelName tid now).parcelName =
        m.parcelName ∧
      (mkPayment s m.parcelId m.parcelName tid now).trackingId = tid ∧
      (mkPayment s m.parcelId m.parcelName tid now).transactionId =
        s.payment_intent ∧
      (s.amount_total = 5000 →
        (mkPayment s m.parcelId m.parcelName tid now).amount = 50) := by
  have hmain : reconcile st gw (some sid) tid now =
      confirmBranch (noteGatewayCall st sid) s m.parcelId m.parcelName
        tid now := by
    cases hf : st.parcels.find? (fun q => q.id == m.parcelId) with
    | none => simp [reconcile, hsid, hgw, hpaid, hmeta, hvalid, hf]
    | some p =>
      simp [reconcile, hsid, hgw, hpaid, hmeta, hvalid, hf, hfind p hf]
  rw [hmain]
  refine ⟨rfl, ?_, rfl, rfl, rfl, rfl, rfl, rfl, rfl, ?_⟩
  · simp [confirmBranch, noteGatewayCall]
  · intro h5
    simp only [mkPayment, h5]
    norm_num

theorem c6_witness :
    (reconcile stUnpaid gwPaid (some "cs_test_1") "ZAP-1" 7).1 =
        .confirmed "ZAP-1" "pi_abc" ∧
      (mkPayment sessPaid "aaaaaaaaaaaaaaaaaaaaaaaa" (some "Box") "ZAP-1"
        7).amount = 50 := by
  have h := c6_payment_record_fields stUnpaid gwPaid "cs_test_1" sessPaid
    mPaid "ZAP-1" 7 (by decide) rfl rfl rfl (by decide)
    (fun p hp => by
      have he : stUnpaid.parcels.find? (fun q => q.id == mPaid.parcelId) =
          some parcelUnpaid := by decide
      rw [he] at hp
      cases hp
      decide)
  exact ⟨h.1, h.2.2.2.2.2.2.2.2.2 rfl⟩

/-- C7, counterexample: the claim says 400 is returned for every body
whose cost is not a positive integer, but `parseInt("5.7") = 5`, so the
non-integer cost `"5.7"` is accepted and yields a session with unit
amount 500. -/
theorem c7_counterexample :
    isPositiveIntegerString "5.7" = false ∧
      createCheckoutSession "5.7" = .ok 500 := by decide

/-- C7 (amended): `POST /create-checkout-session` returns 400 exactly
when `parseInt(cost)` is NaN or non-positive — a non-integer cost whose
leading digits parse to a positive value (such as "5.7") is accepted —
and every accepted request creates a session whose unit amount is the
parsed value times 100; in particular every positive-integer cost yields
its value times 100. -/
theorem c7_cost_validation (cost : String) :
    (createCheckoutSession cost = .badRequest ↔
      jsParseInt cost = none ∨
        ∃ n : Int, jsParseInt cost = some n ∧ n ≤ 0) ∧
      (∀ n : Int, jsParseInt cost = some n → 0 < n →
        createCheckoutSession cost = .ok (n * 100)) ∧
      (isPositiveIntegerString cost = true →
        createCheckoutSession cost =
          .ok ((digitsVal cost.toList : Int) * 100)) := by
  refine ⟨?_, ?_, ?_⟩
  · cases hj : jsParseInt cost with
    | none => simp [createCheckoutSession, hj]
    | some n =>
      by_cases hn : n ≤ 0
      · simp [createCheckoutSession, hj, hn]
      · simp [createCheckoutSession, hj, hn]
  · intro n hn hpos
    simp [createCheckoutSession, hn, not_le.mpr hpos]
  · intro hp
    have hj := jsParseInt_of_digits hp
    have hpos : 0 < digitsVal cost.toList := by
      unfold isPositiveIntegerString at hp
      rw [Bool.and_eq_true, Bool.and_eq_true] at hp
      exact of_decide_eq_true hp.2
    have hpos' : ¬ ((digitsVal cost.toList : Int) ≤ 0) :=
      not_le.mpr (Int.natCast_pos.mpr hpos)
    simp [createCheckoutSession, hj, hpos']
    exact Nat.pos_iff_ne_zero.mp hpos

theorem c7_witness :
    createCheckoutSession "42" = .ok 4200 :=
  (c7_cost_validation "42").2.1 42 (by decide) (by decide)

/-- C8: `GET /payments` is answered 403 whenever the verified identity's
email differs from the query email, returning no records; when they
match, the answer is exactly the payment records with that customerEmail,
sorted by `paidAt` descending. -/
theorem c8_payments_access_control
    (decodedEmail email : String) (payments : List Payment) :
    (decodedEmail ≠ email →
      getPayments decodedEmail email payments = .forbidden) ∧
      (decodedEmail = email →
        ∃ l, getPayments decodedEmail email payments = .ok l ∧
          (∀ p ∈ l, p.customerEmail = email) ∧
          l.Perm (payments.filter (fun p => p.customerEmail == email)) ∧
          l.Pairwise (fun a b => b.paidAt ≤ a.paidAt)) := by
  constructor
  · intro h; simp [getPayments, h]
  · intro h
    refine ⟨List.insertionSort paidAtGE
      (payments.filter (fun p => p.customerEmail == email)), ?_, ?_, ?_, ?_⟩
    · simp [getPayments, h]
    · intro p hp
      have hmem : p ∈ payments.filter (fun p => p.customerEmail == email) :=
        (List.perm_insertionSort paidAtGE _).mem_iff.mp hp
      simpa using List.of_mem_filter hmem
    · exact List.perm_insertionSort paidAtGE _
    · exact List.sorted_insertionSort paidAtGE _

theorem c8_witness :
    getPayments "a@b.c" "evil@x.y" [] = .forbidden :=
  (c8_payments_access_control "a@b.c" "evil@x.y" []).1 (by decide)

/-- C9: a missing or empty `session_id` makes reconcile answer HTTP 400
with the state — including the gateway-call log — completely unchanged,
so the gateway is never contacted for it; and for every non-empty
reference the gateway is queried exactly once with that reference. -/
theorem c9_missing_session_id
    (st : DBState) (gw : String → Option Session) (tid : String)
    (now : Nat) :
    reconcile st gw none tid now = (.invalidRequest, st) ∧
      reconcile st gw (some "") tid now = (.invalidRequest, st) ∧
      statusOf (reconcile st gw none tid now).1 = 400 ∧
      ∀ sid : String, sid ≠ "" →
        (reconcile st gw (some sid) tid now).2.gatewayCalls =
          st.gatewayCalls ++ [sid] := by
  refine ⟨rfl, by simp [reconcile], by simp [reconcile, statusOf], ?_⟩
  intro sid hsid
  unfold reconcile
  dsimp only
  rw [if_neg hsid]
  split
  · rfl
  · split
    · split
      · rfl
      · split
        · split
          · split
            · rfl
            · rfl
          · rfl
        · rfl
    · rfl

theorem c9_witness :
    reconcile stUnpaid gwPaid none "Z" 0 = (.invalidRequest, stUnpaid) ∧
      (reconcile stUnpaid gwPaid (some "cs_test_1") "Z" 0).2.gatewayCalls =
        stUnpaid.gatewayCalls ++ ["cs_test_1"] := by
  have h := c9_missing_session_id stUnpaid gwPaid "Z" 0
  exact ⟨h.1, h.2.2.2 "cs_test_1" (by decide)⟩

/-- C10: `POST /users` keeps emails unique: if a user with the body's
email exists, nothing is inserted and the answer is "User already
exists"; otherwise exactly the new user (role "user", fresh createdAt) is
appended; hence pairwise-distinct emails are preserved by every
sequential request. -/
theorem c10_users_unique_email
    (users : List User) (body : UserBody) (now : Nat) :
    ((∃ u ∈ users, u.email = body.email) →
      postUsers users body now = (.alreadyExists, users)) ∧
      ((∀ u ∈ users, u.email ≠ body.email) →
        postUsers users body now =
          (.created
            { displayName := body.displayName, email := body.email,
              photoURL := body.photoURL, role := "user", createdAt := now },
           users ++
            [{ displayName := body.displayName, email := body.email,
               photoURL := body.photoURL, role := "user",
               createdAt := now }])) ∧
      (users.Pairwise (fun a b => a.email ≠ b.email) →
        (postUsers users body now).2.Pairwise
          (fun a b => a.email ≠ b.email)) := by
  refine ⟨?_, ?_, ?_⟩
  · rintro ⟨u, hu, he⟩
    cases hf : users.find? (fun v => v.email == body.email) with
    | none =>
      exfalso
      have := List.find?_eq_none.mp hf u hu
      simp [he] at this
    | some v => simp [postUsers, hf]
  · intro h
    have hf : users.find? (fun v => v.email == body.email) = none :=
      List.find?_eq_none.mpr (fun u hu => by simpa using h u hu)
    simp [postUsers, hf]
  · intro hpw
    cases hf : users.find? (fun v => v.email == body.email) with
    | some v => simpa [postUsers, hf] using hpw
    | none =>
      have hne : ∀ u ∈ users, u.email ≠ body.email :=
        fun u hu => by simpa using List.find?_eq_none.mp hf u hu
      simp only [postUsers, hf]
      rw [List.pairwise_append]
      refine ⟨hpw, List.pairwise_singleton _ _, ?_⟩
      intro a ha b hb
      simp only [List.mem_singleton] at hb
      subst hb
      exact hne a ha

theorem c10_witness :
    postUsers [] ⟨none, "a@b.c", none⟩ 3 =
      (.created ⟨none, "a@b.c", none, "user", 3⟩,
       [⟨none, "a@b.c", none, "user", 3⟩]) :=
  (c10_users_unique_email [] ⟨none, "a@b.c", none⟩ 3).2.1 (by simp)

end ZapShift
